import Mathlib

/-!
Verification of the central-bank speech-alert monitor (`src/main.py`).

Shallow embedding of the polling/detection pipeline of `main.py`:

* text is modelled as `List Char` (Python `str`);
* wall-clock instants are modelled as `Nat` microseconds since an epoch,
  assuming a monotone clock (`datetime.now()` never decreases), so that
  a `timedelta` between two instants is a nonnegative number of
  microseconds;
* the per-bank mutable dictionaries `last_texts` / `speech_end_time`
  become an explicit `SrcState` record threaded through the functions;
* I/O outcomes (page fetch, classification-service response) are
  abstracted as data given to the pure step functions.
-/

set_option maxRecDepth 100000

namespace FastSpeechAlert

/-- Python `s[-n:]` : the last `n` elements of a list (the whole list
when it is shorter than `n`). -/
def lastN (n : Nat) (l : List Char) : List Char :=
  l.drop (l.length - n)

/-- Python `pat in s` on strings: `pat` occurs as a contiguous substring
of `s`.  Executable translation of the membership test used in
`speech_just_ended`. -/
def containsSub (pat : List Char) : List Char → Bool
  | [] => pat.isPrefixOf []
  | c :: t => pat.isPrefixOf (c :: t) || containsSub pat t

/-- The fixed closing-phrase list of `speech_just_ended`
(`end_phrases`, main.py line 54). -/
def end_phrases : List (List Char) :=
  ["thank you".toList, "questions".toList, "press conference".toList,
   "i am happy to take".toList, "q&a".toList, "moderator".toList]

/-- Model of `new_text.lower()[-600:]` (main.py line 55): lowercase the snapshot,
then keep the trailing 600-character window. -/
def trailing_window (t : List Char) : List Char :=
  lastN 600 (t.map Char.toLower)

/-- Model of `any(phrase in new_text.lower()[-600:] for phrase in end_phrases)`
(main.py line 55). -/
def phrase_check (t : List Char) : Bool :=
  end_phrases.any fun p => containsSub p (trailing_window t)

/-- Python `(now - t0).seconds` for datetimes `t0 ≤ now` measured in
microseconds: `timedelta` normalises a nonnegative delta into days /
seconds / microseconds, so `.seconds` is whole elapsed seconds modulo
86400 (main.py line 58 uses `.seconds`, not `.total_seconds()`). -/
def elapsed_seconds (now t0 : Nat) : Nat :=
  (now - t0) / 1000000 % 86400

/-- Model of `speech_just_ended(bank, new_text)` (main.py lines 51-62).  The
per-bank cell `speech_end_time[bank]` is passed in as `timer` and the
updated cell is returned next to the boolean result; `now` is the value
of `datetime.now()` during the call. -/
def speech_just_ended (timer : Option Nat) (new_text : List Char) (now : Nat) :
    Bool × Option Nat :=
  if new_text.length < 800 then (false, timer)
  else if phrase_check new_text then
    match timer with
    | none => (false, some now)
    | some t0 => if 35 < elapsed_seconds now t0 then (true, some t0) else (false, some t0)
  else (false, none)

/-- Per-source state: the `last_texts[bank]` and `speech_end_time[bank]`
cells of main.py lines 31-32. -/
structure SrcState where
  lastText : List Char
  endTime : Option Nat
deriving DecidableEq

/-- The growth/difference guard of the scheduler (main.py lines 125-126):
`len(new_text) > len(last_texts[bank]) + 400 and new_text != last_texts[bank]`. -/
def growth_guard (lastText new_text : List Char) : Bool :=
  decide (lastText.length + 400 < new_text.length) && decide (new_text ≠ lastText)

/-- One source's processing inside a cycle of `monitor_loop`
(main.py lines 121-133), after the snapshot `t` has been fetched and
normalised: call the detector, accept the transition when the
growth/difference guard also passes (in the code this runs
`classify_tone` and `send_email` and assigns `last_texts[bank] = ""`),
then unconditionally store `last_texts[bank] = new_text` (line 133).
Returns the new state and whether the transition was accepted. -/
def monitorStep (st : SrcState) (t : List Char) (now : Nat) : SrcState × Bool :=
  let r := speech_just_ended st.endTime t now
  let accepted := r.1 && growth_guard st.lastText t
  let st1 : SrcState :=
    if accepted then { lastText := [], endTime := r.2 } else { lastText := st.lastText, endTime := r.2 }
  ({ st1 with lastText := t }, accepted)

/-- Outcome of `fetch_page` + `extract_speech_text` for one source in
one cycle: either the pair raised an exception, or it produced the
normalised snapshot. -/
inductive FetchResult where
  | raises : FetchResult
  | ok : List Char → FetchResult
deriving DecidableEq

/-- Whether a fetch outcome raised. -/
def FetchResult.isRaise : FetchResult → Bool
  | .raises => true
  | .ok _ => false

/-- One cycle of `monitor_loop`'s `for bank, url in BANKS.items()` body
(main.py lines 119-133).  The whole for-loop sits inside a single
`try`, so the first exception aborts the rest of the cycle: every later
source is left unprocessed with its state unchanged.  Each list entry
pairs the source's fetch outcome with its state; each output entry is
(new state, was this source processed this cycle, was a transition
accepted).  `now` abstracts the clock value during the cycle. -/
def runCycle (now : Nat) : List (FetchResult × SrcState) → List (SrcState × Bool × Bool)
  | [] => []
  | (FetchResult.raises, st) :: rest =>
      (st, false, false) :: rest.map fun p => (p.2, false, false)
  | (FetchResult.ok t, st) :: rest =>
      let r := monitorStep st t now
      (r.1, true, r.2) :: runCycle now rest

/-- The detector's boolean outputs over a sequence of timestamped
snapshots for one source, threading `speech_end_time` through the calls. -/
def detectorOutputs (timer : Option Nat) : List (Nat × List Char) → List Bool
  | [] => []
  | (now, t) :: rest =>
      let r := speech_just_ended timer t now
      r.1 :: detectorOutputs r.2 rest

/-- JSON values, as produced by Python `json.loads`. -/
inductive Json where
  | str : List Char → Json
  | num : ℚ → Json
  | bool : Bool → Json
  | null : Json
  | arr : List Json → Json
  | obj : List (List Char × Json) → Json

/-- The fallback judgment of `classify_tone`'s `except` branch
(main.py line 86):
`{"tone": "Neutral", "confidence": 0.0, "key_sentences": []}`. -/
def defaultJudgment : Json :=
  .obj [("tone".toList, .str "Neutral".toList),
        ("confidence".toList, .num 0),
        ("key_sentences".toList, .arr [])]

/-- Outcome of the `try` body of `classify_tone` (main.py lines 75-83):
either the chat-completion call or `json.loads` raised (`failure` —
timeout, service error, non-JSON body, ...), or the body parsed to the
JSON value `v` (`success v`). -/
inductive ServiceResult where
  | failure : ServiceResult
  | success : Json → ServiceResult

/-- Model of `classify_tone(transcript)` (main.py lines 64-86): the prompt embeds
`transcript[:28000]`; any exception in the `try` yields the default
neutral judgment, a successful parse is returned unchanged.  The
transcript only influences which outcome the service produces, so the
outcome is an explicit argument. -/
def classify_tone (transcript : List Char) (outcome : ServiceResult) : Json :=
  let _prompt := transcript.take 28000
  match outcome with
  | .failure => defaultJudgment
  | .success v => v

/-- The `tone` field of a judgment, when it is a string. -/
def judgmentTone (j : Json) : Option (List Char) :=
  match j with
  | .obj fields =>
      match fields.lookup "tone".toList with
      | some (.str s) => some s
      | _ => none
  | _ => none

/-- The `confidence` field of a judgment, when it is a number. -/
def judgmentConfidence (j : Json) : Option ℚ :=
  match j with
  | .obj fields =>
      match fields.lookup "confidence".toList with
      | some (.num q) => some q
      | _ => none
  | _ => none

/-- The `key_sentences` field of a judgment, when it is an array. -/
def judgmentExcerpts (j : Json) : Option (List Json) :=
  match j with
  | .obj fields =>
      match fields.lookup "key_sentences".toList with
      | some (.arr xs) => some xs
      | _ => none
  | _ => none

/-- A syntactically valid JSON response that ignores the schema. -/
def malformedResponse : Json :=
  .obj [("tone".toList, .str "Banana".toList),
        ("confidence".toList, .num 1),
        ("key_sentences".toList, .arr [])]

/-- The tones the spec allows. -/
def allowedTones : List (List Char) :=
  ["Hawkish".toList, "Neutral".toList, "Dovish".toList]

/-- A judgment is well formed when its `tone` field is a string among
the three allowed tones. -/
def wellFormedJudgment (j : Json) : Prop :=
  ∃ s, judgmentTone j = some s ∧ s ∈ allowedTones

/-- A snapshot that fires the detector: 800 repetitions of `a` followed
by a closing phrase, 809 characters in total. -/
def sampleEnded : List Char :=
  List.replicate 800 'a' ++ "thank you".toList

/-- An 800-character snapshot with no closing phrase anywhere. -/
def sampleNoPhrase : List Char :=
  List.replicate 800 'a'

/-- A snapshot of length exactly 800 ending in a closing phrase. -/
def sample800 : List Char :=
  List.replicate 791 'a' ++ "thank you".toList

/-! ## Bridge lemmas between the executable checks and substring facts -/

/-- The function `containsSub` decides contiguous-substring occurrence. -/
theorem containsSub_iff (pat s : List Char) : containsSub pat s = true ↔ pat <:+: s := by
  induction s with
  | nil =>
      simp [containsSub, List.isPrefixOf_iff_prefix]
  | cons c t ih =>
      simp [containsSub, Bool.or_eq_true, List.isPrefixOf_iff_prefix, ih,
        List.infix_cons_iff]

/-- The check `phrase_check` holds exactly when some closing phrase occurs as a
substring of the lowercased trailing window. -/
theorem phrase_check_iff (t : List Char) :
    phrase_check t = true ↔ ∃ p ∈ end_phrases, p <:+: trailing_window t := by
  simp [phrase_check, List.any_eq_true, containsSub_iff]

/-- The detector fires only on snapshots that pass the length and
closing-phrase checks. -/
theorem fired_imp (timer : Option Nat) (t : List Char) (now : Nat)
    (h : (speech_just_ended timer t now).1 = true) :
    800 ≤ t.length ∧ phrase_check t = true := by
  by_cases h1 : t.length < 800
  · simp [speech_just_ended, h1] at h
  · by_cases h2 : phrase_check t
    · exact ⟨Nat.le_of_not_lt h1, h2⟩
    · simp [speech_just_ended, h1, h2] at h

/-- C6: for every initial timer state and every sequence of timestamped
snapshots in which no closing phrase ever occurs (case-insensitively) in
the trailing 600-character window, the detector never returns true. -/
theorem C6_no_phrase_never_fires (timer : Option Nat) (seq : List (Nat × List Char))
    (hseq : ∀ p ∈ seq, ∀ ph ∈ end_phrases, ¬ ph <:+: trailing_window p.2) :
    ∀ b ∈ detectorOutputs timer seq, b = false := by
  induction seq generalizing timer with
  | nil => simp [detectorOutputs]
  | cons hd tl ih =>
      have hpc : ¬ phrase_check hd.2 = true := by
        intro hc
        obtain ⟨p, hp, hinf⟩ := (phrase_check_iff hd.2).mp hc
        exact hseq hd (List.mem_cons_self hd tl) p hp hinf
      intro b hb
      simp only [detectorOutputs, List.mem_cons] at hb
      rcases hb with rfl | hb
      · cases h : (speech_just_ended timer hd.2 hd.1).1
        · rfl
        · exact absurd (fired_imp timer hd.2 hd.1 h).2 hpc
      · exact ih (speech_just_ended timer hd.2 hd.1).2
          (fun p hp => hseq p (List.mem_cons_of_mem hd hp)) b hb

/-- Witness for C6 on a concrete two-observation sequence: the first
output of the run is false. -/
theorem C6_no_phrase_never_fires_witness :
    (speech_just_ended (some 0) "hello world".toList 0).1 = false :=
  C6_no_phrase_never_fires (some 0) [(0, "hello world".toList), (10000000, [])] (by decide)
    (speech_just_ended (some 0) "hello world".toList 0).1 (by decide)

/-- C9: whenever the detector declares a speech ended, the scheduler's
growth/difference guard is satisfied against the empty stored baseline:
an empty `last_texts` entry never rejects a detection. -/
theorem C9_empty_baseline_guard (timer : Option Nat) (t : List Char) (now : Nat)
    (hfire : (speech_just_ended timer t now).1 = true) :
    growth_guard [] t = true := by
  obtain ⟨hlen, -⟩ := fired_imp timer t now hfire
  have h2 : t ≠ [] := by
    intro h
    rw [h] at hlen
    simp at hlen
  simp [growth_guard, h2]
  omega

/-- Witness for C9 at a firing input. -/
theorem C9_empty_baseline_guard_witness : growth_guard [] sampleEnded = true :=
  C9_empty_baseline_guard (some 0) sampleEnded 40000000 (by decide)

/-- C3 counterexample: the empty snapshot fails the minimum-length
check, yet a single detector call leaves the pending-end timestamp set
(`speech_just_ended` returns early on short input without clearing the
timer), contradicting the claim that it is left unset. -/
theorem C3_counterexample :
    ([] : List Char).length < 800 ∧
    (speech_just_ended (some 5) [] 0).2 = some 5 ∧
    (speech_just_ended (some 5) [] 0).2 ≠ none := by decide

/-- C3 amended: a snapshot below the 800-character minimum leaves the
detector state (timer included) completely unchanged, while a snapshot
of at least 800 characters that fails the closing-phrase check clears
the pending timer. -/
theorem C3_amended_clear_behavior (timer : Option Nat) (t : List Char) (now : Nat) :
    (t.length < 800 → speech_just_ended timer t now = (false, timer)) ∧
    (800 ≤ t.length → phrase_check t = false → speech_just_ended timer t now = (false, none)) := by
  constructor
  · intro h
    simp [speech_just_ended, h]
  · intro h1 h2
    simp [speech_just_ended, Nat.not_lt.mpr h1, h2]

/-- Witness for C3 amended on both branches. -/
theorem C3_amended_clear_behavior_witness :
    speech_just_ended (some 3) "hi".toList 9 = (false, some 3) ∧
    speech_just_ended (some 3) sampleNoPhrase 9 = (false, none) :=
  ⟨(C3_amended_clear_behavior (some 3) "hi".toList 9).1 (by decide),
   (C3_amended_clear_behavior (some 3) sampleNoPhrase 9).2 (by decide) (by decide)⟩

/-- C4 counterexample: with the pending timer set at instant 0 and a
near-completion snapshot, the detector returns true at 40 s and, fed
its own returned state with no reset in between, returns true again at
47 s — not exactly once. -/
theorem C4_counterexample :
    (speech_just_ended (some 0) sampleEnded 40000000).1 = true ∧
    (speech_just_ended (speech_just_ended (some 0) sampleEnded 40000000).2
      sampleEnded 47000000).1 = true := by decide

/-- C4 amended: once the debounce window has elapsed, the detector
returns true on every near-completion observation and leaves the timer
in place (it is never auto-cleared by firing); single delivery is left
to the scheduler's growth/difference guard. -/
theorem C4_amended_fires_repeatedly (t0 : Nat) (t : List Char) (now : Nat)
    (hlen : 800 ≤ t.length) (hpc : phrase_check t = true)
    (helapsed : 35 < elapsed_seconds now t0) :
    speech_just_ended (some t0) t now = (true, some t0) := by
  simp [speech_just_ended, Nat.not_lt.mpr hlen, hpc, helapsed]

/-- Witness for C4 amended. -/
theorem C4_amended_fires_repeatedly_witness :
    speech_just_ended (some 0) sampleEnded 40000000 = (true, some 0) :=
  C4_amended_fires_repeatedly 0 sampleEnded 40000000 (by decide) (by decide) (by decide)

/-- C5: evaluation at the failing input.  With the timer recorded at
instant 0 and a near-completion snapshot observed one day and ten
seconds later (elapsed time far above the 35-second window), the
detector returns false, because line 58 compares the `seconds`
component of the timedelta (elapsed mod 86400 = 10) instead of the
total elapsed time. -/
theorem C5_day_wrap_returns_false :
    800 ≤ sampleEnded.length ∧ phrase_check sampleEnded = true ∧
    35 * 1000000 < 86410000000 - 0 ∧
    (speech_just_ended (some 0) sampleEnded 86410000000).1 = false := by decide

/-- C7 counterexample: a snapshot of length exactly 800 — which does
not exceed 800 — with a closing phrase in its trailing window is still
treated as near-completion: a detector call from the idle state sets
the pending timer on it. -/
theorem C7_counterexample :
    sample800.length = 800 ∧ ¬ 800 < sample800.length ∧
    (speech_just_ended none sample800 7).2 = some 7 := by decide

/-- C7 amended: a snapshot is treated as near-completion (sets the
timer from the idle state; firing is only possible on it) exactly when
its length is at least 800 characters and some fixed closing phrase
occurs as a substring of the lowercased trailing 600-character window;
a phrase occurring only before that window does not qualify. -/
theorem C7_amended_near_completion_iff (t : List Char) (now t0 : Nat) :
    ((speech_just_ended none t now).2.isSome = true ↔
      800 ≤ t.length ∧ ∃ p ∈ end_phrases, p <:+: trailing_window t) ∧
    ((speech_just_ended (some t0) t now).1 = true →
      800 ≤ t.length ∧ ∃ p ∈ end_phrases, p <:+: trailing_window t) := by
  constructor
  · constructor
    · intro h
      by_cases h1 : t.length < 800
      · simp [speech_just_ended, h1] at h
      · by_cases h2 : phrase_check t
        · exact ⟨Nat.le_of_not_lt h1, (phrase_check_iff t).mp h2⟩
        · simp [speech_just_ended, h1, h2] at h
    · rintro ⟨h1, hp⟩
      have h2 : phrase_check t = true := (phrase_check_iff t).mpr hp
      simp [speech_just_ended, Nat.not_lt.mpr h1, h2]
  · intro h
    obtain ⟨h1, h2⟩ := fired_imp (some t0) t now h
    exact ⟨h1, (phrase_check_iff t).mp h2⟩

/-- Witness for C7 amended, on both directions. -/
theorem C7_amended_near_completion_iff_witness :
    (speech_just_ended none sampleEnded 7).2.isSome = true ∧
    (800 ≤ sampleEnded.length ∧ ∃ p ∈ end_phrases, p <:+: trailing_window sampleEnded) :=
  ⟨(C7_amended_near_completion_iff sampleEnded 7 0).1.mpr
      ⟨by decide, "thank you".toList, by decide, (containsSub_iff _ _).mp (by decide)⟩,
   (C7_amended_near_completion_iff sampleEnded 40000000 0).2 (by decide)⟩

/-- C10: on the cycle immediately after an accepted transition, the
stored snapshot equals the triggering snapshot (line 131's reset is
overwritten by line 133), so a byte-identical refetch fails the
growth/difference guard and no second transition is accepted. -/
theorem C10_no_retrigger_on_identical (st : SrcState) (t : List Char) (now now' : Nat)
    (_hacc : (monitorStep st t now).2 = true) :
    (monitorStep st t now).1.lastText = t ∧
    (monitorStep (monitorStep st t now).1 t now').2 = false := by
  have hlast : (monitorStep st t now).1.lastText = t := rfl
  refine ⟨hlast, ?_⟩
  have hgg : growth_guard t t = false := by simp [growth_guard]
  simp [monitorStep, hlast, hgg]

/-- Witness for C10 at an accepted transition. -/
theorem C10_no_retrigger_on_identical_witness :
    (monitorStep ⟨[], some 0⟩ sampleEnded 40000000).1.lastText = sampleEnded ∧
    (monitorStep (monitorStep ⟨[], some 0⟩ sampleEnded 40000000).1
      sampleEnded 47000000).2 = false :=
  C10_no_retrigger_on_identical ⟨[], some 0⟩ sampleEnded 40000000 47000000 (by decide)

/-- C2: evaluation at the failing input.  A transition is accepted, yet
afterwards the stored snapshot equals the triggering snapshot (line
131's `last_texts[bank] = ""` is immediately overwritten by the
unconditional line 133) and the pending-end timestamp is still set
(`speech_end_time[bank]` is never cleared), contradicting the claimed
post-transition reset. -/
theorem C2_reset_not_performed :
    (monitorStep ⟨[], some 0⟩ sampleEnded 40000000).2 = true ∧
    (monitorStep ⟨[], some 0⟩ sampleEnded 40000000).1.lastText = sampleEnded ∧
    (monitorStep ⟨[], some 0⟩ sampleEnded 40000000).1.lastText ≠ [] ∧
    (monitorStep ⟨[], some 0⟩ sampleEnded 40000000).1.endTime = some 0 := by decide

/-- C1 counterexample: with two sources, the first raising on fetch and
the second holding a snapshot that fires the detector, the cycle skips
the second source entirely (not polled, state untouched) — while the
same second source processed on its own yields an accepted transition.
The `try` of `monitor_loop` wraps the whole for-loop, not each source. -/
theorem C1_counterexample :
    runCycle 40000000 [(.raises, ⟨[], none⟩), (.ok sampleEnded, ⟨[], some 0⟩)] =
      [(⟨[], none⟩, false, false), (⟨[], some 0⟩, false, false)] ∧
    runCycle 40000000 [(.ok sampleEnded, ⟨[], some 0⟩)] =
      [(⟨sampleEnded, some 0⟩, true, true)] := by decide

/-- C1 amended: an exception while processing a source is caught at the
per-cycle boundary, not per source: sources before the failing one in
the cycle's fixed order are processed normally, while the failing
source and every source after it are skipped for that cycle with their
state unchanged (the loop itself survives and retries after the longer
backoff delay). -/
theorem C1_amended_cycle_aborts (now : Nat) (pre : List (FetchResult × SrcState))
    (st : SrcState) (post : List (FetchResult × SrcState))
    (hpre : ∀ x ∈ pre, x.1.isRaise = false) :
    runCycle now (pre ++ (FetchResult.raises, st) :: post) =
      runCycle now pre ++ (st, false, false) :: post.map (fun p => (p.2, false, false)) := by
  induction pre with
  | nil => simp [runCycle]
  | cons hd tl ih =>
      obtain ⟨f, s⟩ := hd
      cases f with
      | raises =>
          have := hpre (FetchResult.raises, s) (List.mem_cons_self _ tl)
          simp [FetchResult.isRaise] at this
      | ok t =>
          simp only [List.cons_append, runCycle, List.append_eq]
          rw [ih (fun x hx => hpre x (List.mem_cons_of_mem _ hx))]

/-- Witness for C1 amended: one healthy source before the failing one,
one after. -/
theorem C1_amended_cycle_aborts_witness :
    runCycle 0 ([(FetchResult.ok "hi".toList, ⟨[], none⟩)] ++
        (FetchResult.raises, (⟨"x".toList, some 3⟩ : SrcState)) ::
          [(FetchResult.ok sampleEnded, ⟨[], some 0⟩)]) =
      runCycle 0 [(FetchResult.ok "hi".toList, ⟨[], none⟩)] ++
        ((⟨"x".toList, some 3⟩ : SrcState), false, false) ::
          List.map (fun p => (p.2, false, false)) [(FetchResult.ok sampleEnded, ⟨[], some 0⟩)] :=
  C1_amended_cycle_aborts 0 [(FetchResult.ok "hi".toList, ⟨[], none⟩)]
    ⟨"x".toList, some 3⟩ [(FetchResult.ok sampleEnded, ⟨[], some 0⟩)] (by decide)

/-- C8 counterexample: a classification-service outcome that parses as
valid JSON but does not follow the schema (tone `Banana`) is returned
unchanged by `classify_tone`, so the caller does not receive a judgment
whose tone is Hawkish, Neutral or Dovish. -/
theorem C8_counterexample :
    ¬ wellFormedJudgment (classify_tone [] (.success malformedResponse)) := by
  rintro ⟨s, hs, hmem⟩
  have hval : judgmentTone (classify_tone [] (.success malformedResponse)) =
      some ("Banana".toList) := rfl
  rw [hval] at hs
  injection hs with h
  subst h
  revert hmem
  decide

/-- C8 amended: `classify_tone` never raises; on any failure of the
service call or of JSON parsing it returns the default neutral judgment
(tone Neutral, confidence 0, empty excerpt list), which is well formed;
on a successful parse the JSON value is returned without schema
validation. -/
theorem C8_amended_failure_neutral (transcript : List Char) :
    classify_tone transcript .failure = defaultJudgment ∧
    wellFormedJudgment (classify_tone transcript .failure) ∧
    judgmentConfidence (classify_tone transcript .failure) = some 0 ∧
    judgmentExcerpts (classify_tone transcript .failure) = some [] ∧
    ∀ v, classify_tone transcript (.success v) = v :=
  ⟨rfl, ⟨"Neutral".toList, rfl, by decide⟩, rfl, rfl, fun _ => rfl⟩

end FastSpeechAlert
